import Mathlib

/-!
Shallow embedding of the healthcare data pipeline and its scheduler
(`scripts/healthcare_pipeline.py` and `pipeline_scheduler.py`).

Pure Python functions become Lean functions; in-place mutation of a
pandas DataFrame is translated as explicit state passing (a function that
may mutate its input batch returns the updated batch); code that can raise
returns `Except String _`; a call whose outcome depends on the outside
world (extraction, database writes, exceptions thrown by collaborators)
takes that outcome as an explicit parameter.

Numeric columns and Python floats are modelled over `ℚ`; a pandas cell
that may be missing (`NaN` / `NaT`) is an `Option`.  A timestamp is
modelled abstractly as an integer day ordinal (`Date := ℤ`): only
ordering and day differences of timestamps are used by the code under
verification.
-/

namespace HealthcarePipeline

/-- Timestamps: abstract day ordinals.  Only ordering and subtraction
(`.dt.days`) are used by the embedded code. -/
abbrev Date := ℤ

/-- One row's worth of a boolean mask applied to every column of a
DataFrame: keep the entries of `l` whose mask bit is `true`
(`df[mask]` row filtering). -/
def applyMask (mask : List Bool) (l : List α) : List α :=
  (List.zip mask l).foldr (fun p acc => if p.1 then p.2 :: acc else acc) []

/-- `Series.unique()` on the filtered values: first occurrences, in order. -/
def uniquesInOrder [DecidableEq α] (l : List α) : List α :=
  l.foldl (fun acc x => if acc.contains x then acc else acc ++ [x]) []

/-- `Series.duplicated()`: for each element, whether an equal element
occurred earlier in the list (pandas marks every occurrence after the
first, and treats missing values as equal to each other, as `Option`
equality does here). -/
def duplicatedFlags [DecidableEq α] (l : List α) : List Bool :=
  (l.foldl (fun (acc : List α × List Bool) x =>
    (acc.1 ++ [x], acc.2 ++ [acc.1.contains x])) ([], [])).2

/-- `Series.duplicated().sum()`: the number of occurrences beyond the
first of each value. -/
def dupCount [DecidableEq α] (l : List α) : Nat :=
  (duplicatedFlags l).count true

/-- A pandas DataFrame restricted to the columns this pipeline reads or
writes.  A column is `none` when absent from the frame; a present column
is a list of per-row cells, each cell `none` when the value is missing
(`NaN`/`NaT`).  Raw date and billing cells are modelled by their
`pd.to_datetime(·, errors=coerce)` / `pd.to_numeric(·, errors=coerce)`
parse results (`none` = unparsable or missing), which is all the embedded
code observes of them. -/
structure Batch where
  nrows : Nat
  name : Option (List (Option String)) := none
  age : Option (List (Option ℤ)) := none
  gender : Option (List (Option String)) := none
  insurance : Option (List (Option String)) := none
  dateOfAdmission : Option (List (Option Date)) := none
  dischargeDate : Option (List (Option Date)) := none
  admissionType : Option (List (Option String)) := none
  roomNumber : Option (List (Option String)) := none
  billingAmount : Option (List (Option ℚ)) := none
  first_name : Option (List (Option String)) := none
  last_name : Option (List (Option String)) := none
  patient_id : Option (List (Option String)) := none
  date_of_birth : Option (List (Option Date)) := none
  admission_date : Option (List (Option Date)) := none
  discharge_date : Option (List (Option Date)) := none
  length_of_stay : Option (List (Option ℤ)) := none
  deriving Repr, DecidableEq

/-- The validation issue strings built by `DataValidator`, modelled as
tagged values carrying the data interpolated into the message. -/
inductive Issue where
  | missingColumns (cols : List String)
  | negativeAges (count : Nat)
  | invalidGenders (values : List (Option String))
  | excessiveDuplicates (count : Nat)
  | futureAdmissions (count : Nat)
  | dischargeBeforeAdmission (count : Nat)
  | invalidAdmissionTypes (values : List (Option String))
  | negativeBilling (count : Nat)
  | extremeBilling (count : Nat)
  deriving Repr, DecidableEq

/-- Recognizer for the duplicate-identity issue among a validator's
collected issues. -/
def isDupIssue : Issue → Bool
  | .excessiveDuplicates _ => true
  | _ => false

/-- Which columns of `Batch` are present, by source column name; used for
the validators' required-column checks. -/
def hasColumn (b : Batch) : String → Bool
  | "Name" => b.name.isSome
  | "Age" => b.age.isSome
  | "Gender" => b.gender.isSome
  | "Insurance Provider" => b.insurance.isSome
  | "Date of Admission" => b.dateOfAdmission.isSome
  | "Discharge Date" => b.dischargeDate.isSome
  | "Admission Type" => b.admissionType.isSome
  | "Room Number" => b.roomNumber.isSome
  | "Billing Amount" => b.billingAmount.isSome
  | _ => false

/-- The required-column check of `validate_patient_data`. -/
def patientRequiredIssues (b : Batch) : List Issue :=
  let required := ["Name", "Age", "Gender", "Insurance Provider"]
  let missing := required.filter (fun c => !(hasColumn b c))
  if missing ≠ [] then [.missingColumns missing] else []

/-- The negative-age check of `validate_patient_data` (a missing age
compares false against 0, as `NaN` does). -/
def patientAgeIssues (b : Batch) : List Issue :=
  match b.age with
  | none => []
  | some ages =>
    let invalid := ages.countP (fun c : Option ℤ => match c with
      | some a => decide (a < 0)
      | none => false)
    if invalid > 0 then [.negativeAges invalid] else []

/-- The gender allow-list check of `validate_patient_data` (`isin` is
false for a missing cell, so missing genders count as invalid values). -/
def patientGenderIssues (b : Batch) : List Issue :=
  match b.gender with
  | none => []
  | some gs =>
    let valid : List (Option String) :=
      [some "Male", some "Female", some "M", some "F"]
    let bad := uniquesInOrder (gs.filter (fun g => !(valid.contains g)))
    if bad ≠ [] then [.invalidGenders bad] else []

/-- The duplicate-name check of `validate_patient_data`: an issue only
when the duplicated count exceeds half the batch size
(`duplicates > len(df) * 0.5`); smaller positive counts are only
logged. -/
def patientDupIssues (b : Batch) : List Issue :=
  match b.name with
  | none => []
  | some names =>
    let d := dupCount names
    if d > 0 then
      if (d : ℚ) > (b.nrows : ℚ) * (5 / 10) then
        [.excessiveDuplicates d]
      else []
    else []

/-- `DataValidator.validate_patient_data`.  Python passes the DataFrame by
reference and could mutate it, so the translation returns the (here
unchanged) batch alongside `(passed, errors)`. -/
def validate_patient_data (b : Batch) : Batch × Bool × List Issue :=
  let errors := patientRequiredIssues b ++ patientAgeIssues b
    ++ patientGenderIssues b ++ patientDupIssues b
  (b, errors.isEmpty, errors)

/-- `DataValidator.validate_admission_data`.  When both date columns are
present the source assigns the coerced parses to two new columns
`admission_date` / `discharge_date` on the batch passed in — an in-place
mutation of the caller's DataFrame, returned here as the updated batch. -/
def validate_admission_data (now : Date) (b : Batch) : Batch × Bool × List Issue :=
  let required := ["Date of Admission", "Discharge Date", "Admission Type"]
  let missing := required.filter (fun c => !(hasColumn b c))
  let e1 : List Issue := if missing ≠ [] then [.missingColumns missing] else []
  let step :=
    match b.dateOfAdmission, b.dischargeDate with
    | some adm, some dis =>
      let b2 := { b with admission_date := some adm, discharge_date := some dis }
      let future := adm.countP (fun c : Option Date => match c with
        | some d => decide (d > now)
        | none => false)
      let e2 : List Issue := if future > 0 then [.futureAdmissions future] else []
      let invalid := (List.zip dis adm).countP
        (fun p : Option Date × Option Date => match p with
          | (some d, some a) => decide (d < a)
          | _ => false)
      let e3 : List Issue :=
        if invalid > 0 then [.dischargeBeforeAdmission invalid] else []
      (b2, e2 ++ e3)
    | _, _ => (b, [])
  let b3 := step.1
  let e4 : List Issue :=
    match b3.admissionType with
    | none => []
    | some ts =>
      let valid : List (Option String) :=
        [some "Emergency", some "Elective", some "Urgent", some "Transfer"]
      let bad := uniquesInOrder (ts.filter (fun t => !(valid.contains t)))
      if bad ≠ [] then [.invalidAdmissionTypes bad] else []
  let errs := e1 ++ step.2 ++ e4
  (b3, errs.isEmpty, errs)

/-- Insertion into an ascending list, for the quantile computation. -/
def insertSorted (x : ℚ) : List ℚ → List ℚ
  | [] => [x]
  | y :: ys => if x ≤ y then x :: y :: ys else y :: insertSorted x ys

/-- Ascending sort of the non-null values of a column. -/
def sortedValues (cells : List (Option ℚ)) : List ℚ :=
  (cells.filterMap id).foldr insertSorted []

/-- `Series.quantile(0.99)` with pandas' linear interpolation, skipping
missing values; `none` when the series has no non-null value (pandas
yields `NaN` there, which makes every later `>` comparison false). -/
def quantile99 (cells : List (Option ℚ)) : Option ℚ :=
  let xs := sortedValues cells
  match xs with
  | [] => none
  | _ =>
    let n := xs.length
    let h : ℚ := ((n : ℚ) - 1) * (99 / 100)
    let i : Nat := h.floor.toNat
    let lo := xs.getD i 0
    let hi := xs.getD (i + 1) lo
    some (lo + (h - (i : ℚ)) * (hi - lo))

/-- `DataValidator.validate_financial_data`; no statement in the source
assigns to the DataFrame, so the batch comes back unchanged. -/
def validate_financial_data (b : Batch) : Batch × Bool × List Issue :=
  let e1 : List Issue :=
    match b.billingAmount with
    | none => []
    | some cells =>
      let neg := cells.countP (fun c => match c with
        | some q => decide (q < 0)
        | none => false)
      if neg > 0 then [.negativeBilling neg] else []
  let e2 : List Issue :=
    match b.billingAmount with
    | none => []
    | some cells =>
      match quantile99 cells with
      | none => []
      | some q99 =>
        let out := cells.countP (fun c => match c with
          | some q => decide (q > q99 * 10)
          | none => false)
        if out > 0 then [.extremeBilling out] else []
  (b, (e1 ++ e2).isEmpty, e1 ++ e2)

/-- The characters before the first space of a name
(`split(sep, 1)[0]`; the whole string when it has no space). -/
def headChars : List Char → List Char
  | [] => []
  | c :: cs => if c = ' ' then [] else c :: headChars cs

/-- The characters after the first space, when there is one
(`split(sep, 1)[1]`). -/
def restChars : List Char → Option (List Char)
  | [] => none
  | c :: cs => if c = ' ' then some cs else restChars cs

/-- The first space-separated component of a name. -/
def splitHead (s : String) : String := String.mk (headChars s.data)

/-- Python `s.split(sep, 1)[1]` as an optional value: the remainder after
the first space, `none` when the string contains no space (pandas then
leaves a missing cell in the expanded part column). -/
def splitRest (s : String) : Option String :=
  (restChars s.data).map String.mk

/-- The `gender_mapping` dict of `clean_patient_data`. -/
def gender_mapping : List (String × String) :=
  [("Male", "M"), ("Female", "F"), ("MALE", "M"), ("FEMALE", "F")]

/-- `Series.map(gender_mapping)`: dict lookup, missing key (or missing
value) yields a missing cell. -/
def mapGender (c : Option String) : Option String :=
  c.bind (fun s => (gender_mapping.find? (fun p => p.1 == s)).map (fun p => p.2))

/-- `Series.map(gender_mapping).fillna('Unknown')` per cell. -/
def standardize_gender (c : Option String) : Option String :=
  some ((mapGender c).getD "Unknown")

/-- ASCII upper-casing applied to the character list, used to state
case-insensitivity executably (`String.toUpper` is observationally the
same map but its `mapAux` loop does not reduce in the kernel). -/
def upperAscii (s : String) : String := String.mk (s.data.map Char.toUpper)

/-- The first 12 hex digits of the MD5 digest of a name, modelled as an
abstract deterministic total function on strings — no claim under
verification inspects the digest's value, only that its computation is
deterministic, total on strings and fails on a missing value. -/
def md5hex12 (s : String) : String := s

/-- Abstract day ordinal of 1 January of year `y`, for the
date-of-birth estimate. -/
def jan1 (y : ℤ) : Date := 366 * y

/-- `pd.to_datetime(str(year) ++ "-01-01", errors=coerce)`: a 1 January
timestamp when the year is inside the pandas `Timestamp` range,
otherwise a missing value. -/
def parseJan1 (y : ℤ) : Option Date :=
  if 1678 ≤ y ∧ y ≤ 2262 then some (jan1 y) else none

/-- The name-split stage of `clean_patient_data`: when a `Name` column
is present, expand it at the first space into `first_name` /
`last_name` (the latter back-filled with an empty string).  The expanded
part frame has a column 0 only when the frame is non-empty and a column
1 only when some non-null name contains a space; accessing a missing
part column raises `KeyError`. -/
def splitNameStep (b : Batch) : Except String Batch :=
  match b.name with
  | none => pure b
  | some names =>
    match names with
    | [] => throw "KeyError: 0"
    | _ :: _ =>
      let parts0 := names.map (fun c => c.map splitHead)
      let parts1 := names.map (fun c => c.bind splitRest)
      if parts1.all (fun c => c = none) then
        throw "KeyError: 1"
      else
        pure { b with
          first_name := some parts0
          last_name := some (parts1.map (fun c => some (c.getD ""))) }

/-- The gender-standardization stage of `clean_patient_data`. -/
def genderStep (b : Batch) : Batch :=
  match b.gender with
  | none => b
  | some gs => { b with gender := some (gs.map standardize_gender) }

/-- The patient-id stage of `clean_patient_data`: unguarded, so it
raises `KeyError` when the `Name` column is absent and
`AttributeError` when a name cell is missing (a float `NaN` has no
`encode`). -/
def patientIdStep (b : Batch) : Except String Batch :=
  match b.name with
  | none => throw "KeyError: Name"
  | some names =>
    if names.all (fun c => c.isSome) then
      pure { b with
        patient_id := some (names.map (fun c => c.map md5hex12)) }
    else
      throw "AttributeError: nan has no encode"

/-- The date-of-birth stage of `clean_patient_data`: estimate 1 January
of `currentYear − age`; a missing age or an out-of-range year coerces to
a missing date. -/
def dobStep (currentYear : ℤ) (b : Batch) : Batch :=
  match b.age with
  | none => b
  | some ages =>
    { b with
      date_of_birth := some (ages.map (fun c => c.bind
        (fun a => parseJan1 (currentYear - a)))) }

/-- `DataTransformer.clean_patient_data`: the four stages in source
order.  Not total: see `splitNameStep` and `patientIdStep`. -/
def clean_patient_data (currentYear : ℤ) (b : Batch) : Except String Batch := do
  let b1 ← splitNameStep b
  let b3 ← patientIdStep (genderStep b1)
  pure (dobStep currentYear b3)

/-- Python `str.title()`, restricted to space-separated words (the only
shape this data uses): each word's first character upper-cased, the rest
lower-cased. -/
def strTitle (s : String) : String :=
  String.intercalate " " ((s.splitOn " ").map
    (fun w => (w.take 1).toUpper ++ (w.drop 1).toLower))

/-- `DataTransformer.clean_admission_data`: date coercion (identity on
this model's pre-parsed date cells), length-of-stay derivation,
admission-type title-casing, room-number stringification
(`astype(str)` renders a missing cell as the string value nan). -/
def clean_admission_data (b : Batch) : Batch :=
  let b2 :=
    match b.dateOfAdmission, b.dischargeDate with
    | some adm, some dis =>
      { b with length_of_stay := some ((List.zip dis adm).map
          (fun p : Option Date × Option Date => match p with
            | (some d, some a) => some (d - a)
            | _ => none)) }
    | _, _ => b
  let b3 :=
    match b2.admissionType with
    | none => b2
    | some ts =>
      let ts2 := ts.map (fun c : Option String => c.map strTitle)
      { b2 with admissionType := some ts2 }
  match b3.roomNumber with
  | none => b3
  | some rs =>
    let rs2 := rs.map (fun c : Option String => some ((c.getD "nan").trim))
    { b3 with roomNumber := some rs2 }

/-- The non-null values of a numeric column. -/
def nonNull (cells : List (Option ℚ)) : List ℚ := cells.filterMap id

/-- `Series.mean()` (skips missing values). -/
def billingMean (cells : List (Option ℚ)) : ℚ :=
  let xs := nonNull cells
  xs.sum / (xs.length : ℚ)

/-- `Series.std() ^ 2`, the sample variance with `ddof = 1`
(skips missing values). -/
def billingVar (cells : List (Option ℚ)) : ℚ :=
  let xs := nonNull cells
  let m := billingMean cells
  (xs.map (fun x => (x - m) ^ 2)).sum / ((xs.length : ℚ) - 1)

/-- The row filter of `clean_financial_data`:
`lower ≤ cell ∧ cell ≤ upper` with `lower = mean − 3·std` and
`upper = mean + 3·std`.  Over the reals this conjunction is exactly
`(cell − mean)² ≤ 9·var` (square both sides of `|cell − mean| ≤ 3·√var`),
which keeps the computation inside `ℚ`.  A missing cell compares false,
and when fewer than two values are non-null the sample std (hence both
bounds) is `NaN`, so every comparison is false and every row is
dropped. -/
def withinBand (cells : List (Option ℚ)) (c : Option ℚ) : Bool :=
  match c with
  | none => false
  | some q =>
    decide (2 ≤ (nonNull cells).length) &&
    decide ((q - billingMean cells) ^ 2 ≤ 9 * billingVar cells)

/-- `DataTransformer.clean_financial_data`: numeric coercion of the
billing column (identity on this model's pre-parsed cells), then removal
of every row whose billing value is missing or lies outside the
3-standard-deviation band; the row mask is applied to every column of
the frame. -/
def clean_financial_data (b : Batch) : Batch :=
  match b.billingAmount with
  | none => b
  | some cells =>
    let mask := cells.map (withinBand cells)
    { nrows := mask.count true
      name := b.name.map (applyMask mask)
      age := b.age.map (applyMask mask)
      gender := b.gender.map (applyMask mask)
      insurance := b.insurance.map (applyMask mask)
      dateOfAdmission := b.dateOfAdmission.map (applyMask mask)
      dischargeDate := b.dischargeDate.map (applyMask mask)
      admissionType := b.admissionType.map (applyMask mask)
      roomNumber := b.roomNumber.map (applyMask mask)
      billingAmount := some (applyMask mask cells)
      first_name := b.first_name.map (applyMask mask)
      last_name := b.last_name.map (applyMask mask)
      patient_id := b.patient_id.map (applyMask mask)
      date_of_birth := b.date_of_birth.map (applyMask mask)
      admission_date := b.admission_date.map (applyMask mask)
      discharge_date := b.discharge_date.map (applyMask mask)
      length_of_stay := b.length_of_stay.map (applyMask mask) }

/-- The pipeline configuration fields this subsystem branches on
(`PipelineConfig`; the source/target selection fields are absorbed into
`PipelineEnv` below, which carries the outcomes of the external calls
they parameterize). -/
structure PipelineConfig where
  validation_enabled : Bool := true
  backup_enabled : Bool := true
  monitoring_enabled : Bool := true
  deriving Repr, DecidableEq

/-- Outcomes of the pipeline's interactions with the outside world: what
extraction yields (a batch, or the exception text it raises), whether
each sub-entity load succeeds (each loader catches its own exceptions and
returns a boolean), the run timestamp, and the current year used by the
date-of-birth estimate. -/
structure PipelineEnv where
  extract : Except String Batch
  load_patients_ok : Bool
  load_admissions_ok : Bool
  load_financial_ok : Bool
  now : Date
  currentYear : ℤ
  deriving Repr

/-- `PipelineMonitor` (pipeline-side) metric state. -/
structure MonitorMetrics where
  records_processed : Nat := 0
  records_failed : Nat := 0
  validation_errors : List Issue := []
  ended : Bool := false
  deriving Repr, DecidableEq

/-- One `monitor.add_validation_error` call per collected issue: each
appends the issue and increments `records_failed`. -/
def add_validation_errors (m : MonitorMetrics) (issues : List Issue) : MonitorMetrics :=
  { m with
    validation_errors := m.validation_errors ++ issues
    records_failed := m.records_failed + issues.length }

/-- `HealthcarePipeline.validate_data`: runs the three validator
categories in order on the same frame (so the admission validator's
in-place column additions are visible downstream), records every issue
in the monitor, and passes only when all three categories pass. -/
def validate_data (now : Date) (b : Batch) (m : MonitorMetrics) :
    Batch × Bool × MonitorMetrics :=
  let p := validate_patient_data b
  let a := validate_admission_data now p.1
  let f := validate_financial_data a.1
  (f.1, p.2.1 && a.2.1 && f.2.1,
    add_validation_errors m (p.2.2 ++ a.2.2 ++ f.2.2))

/-- `HealthcarePipeline.transform_data`: the three cleaners in sequence;
only the patient cleaner can raise. -/
def transform_data (currentYear : ℤ) (b : Batch) : Except String Batch := do
  let b1 ← clean_patient_data currentYear b
  pure (clean_financial_data (clean_admission_data b1))

/-- `HealthcarePipeline.load_data`: all three sub-entity loads are
attempted independently; overall success is their conjunction. -/
def load_data (env : PipelineEnv) : Bool :=
  env.load_patients_ok && env.load_admissions_ok && env.load_financial_ok

/-- The outcome of one `HealthcarePipeline.run_pipeline` call: the
boolean it returns, whether the load stage was reached, and the final
monitor metrics.  (`create_backup` and `save_metrics` swallow their own
errors and touch no state modelled here.) -/
structure RunResult where
  success : Bool
  loadAttempted : Bool
  metrics : MonitorMetrics
  deriving Repr, DecidableEq

/-- `HealthcarePipeline.run_pipeline`: extract, optionally validate
(returning `False` on a failed validation, before transform/load),
transform, load, backup; any exception inside the stages is caught by
the function's own handler, which ends monitoring and returns `False` —
so the function is total and never propagates an exception. -/
def run_pipeline (cfg : PipelineConfig) (env : PipelineEnv) : RunResult :=
  match env.extract with
  | .error _ =>
    { success := false, loadAttempted := false
      metrics := { ended := true } }
  | .ok df =>
    let m1 : MonitorMetrics := { records_processed := df.nrows }
    let v : Batch × Bool × MonitorMetrics :=
      if cfg.validation_enabled then validate_data env.now df m1
      else (df, true, m1)
    if v.2.1 = false then
      { success := false, loadAttempted := false, metrics := v.2.2 }
    else
      match transform_data env.currentYear v.1 with
      | .error _ =>
        { success := false, loadAttempted := false
          metrics := { v.2.2 with ended := true } }
      | .ok _ =>
        if load_data env = false then
          { success := false, loadAttempted := true, metrics := v.2.2 }
        else
          { success := true, loadAttempted := true
            metrics := { v.2.2 with ended := true } }

/-- The fields of `PipelineMonitor.get_summary` that the scheduler
reads. -/
structure JobMetrics where
  records_processed : Nat
  records_failed : Nat
  success_rate : ℚ
  validation_errors : Nat
  deriving Repr, DecidableEq

/-- `PipelineMonitor.get_summary`:
`success_rate = (processed − failed) / max(processed, 1) * 100`. -/
def get_summary (m : MonitorMetrics) : JobMetrics :=
  { records_processed := m.records_processed
    records_failed := m.records_failed
    success_rate :=
      ((m.records_processed : ℚ) - (m.records_failed : ℚ))
        / (max m.records_processed 1 : ℚ) * 100
    validation_errors := m.validation_errors.length }

end HealthcarePipeline

namespace PipelineScheduler

open HealthcarePipeline

/-- The `job_info` dict built by `PipelineScheduler.run_pipeline_job`,
restricted to the fields the embedded code reads.  `processing_time` and
`metrics` are optional because a dict key may be absent
(`job_info.get(key, default)`). -/
structure JobRun where
  job_id : Nat
  environment : String
  status : String
  processing_time : Option ℚ
  metrics : Option JobMetrics
  error : Option String
  deriving Repr, DecidableEq

/-- The outcome of the scheduler's `try` block body — constructing the
`HealthcarePipeline` and calling `run_pipeline` — as seen at the `try`
boundary: either a normal return (the pipeline's boolean and the
monitor summary) or an exception with its text. -/
inductive PipelineOutcome where
  | ok (success : Bool) (summary : JobMetrics)
  | exn (detail : String)
  deriving Repr, DecidableEq

/-- One invocation of `run_pipeline_job`: its generated job id, the
target environment, the wall-clock seconds the run takes, and the
outcome of constructing and running the pipeline. -/
structure JobInput where
  job_id : Nat
  environment : String
  elapsed : ℚ
  outcome : PipelineOutcome
  deriving Repr, DecidableEq

/-- The scheduler's mutable fields read by the embedded code. -/
structure SchedulerState where
  pipeline_history : List JobRun
  is_running : Bool
  deriving Repr, DecidableEq

/-- The `job_info` produced by one `run_pipeline_job` call: the `try`
branch stamps `completed`/`failed` from the pipeline's boolean and
attaches the monitor summary; the `except` branch stamps `error` and
stores the exception text under `error`. -/
def mkJobRun (inp : JobInput) : JobRun :=
  match inp.outcome with
  | .ok success summary =>
    { job_id := inp.job_id
      environment := inp.environment
      status := if success then "completed" else "failed"
      processing_time := some inp.elapsed
      metrics := some summary
      error := none }
  | .exn e =>
    { job_id := inp.job_id
      environment := inp.environment
      status := "error"
      processing_time := some inp.elapsed
      metrics := none
      error := some e }

/-- The history-trimming step of `run_pipeline_job`: keep only the last
100 entries once the list exceeds 100. -/
def truncHistory (l : List JobRun) : List JobRun :=
  if l.length > 100 then l.drop (l.length - 100) else l

/-- `PipelineScheduler.run_pipeline_job`: build the job record (catching
any pipeline exception), append it to the history, trim the history to
100 entries, and return the record. -/
def run_pipeline_job (s : SchedulerState) (inp : JobInput) : SchedulerState × JobRun :=
  let r := mkJobRun inp
  ({ s with pipeline_history := truncHistory (s.pipeline_history ++ [r]) }, r)

/-- A sequence of `run_pipeline_job` calls. -/
def runJobs (s : SchedulerState) (inputs : List JobInput) : SchedulerState :=
  inputs.foldl (fun st inp => (run_pipeline_job st inp).1) s

/-- The scheduler's initial state (`__init__`). -/
def initialState : SchedulerState :=
  { pipeline_history := [], is_running := false }

/-- `run_pipeline_job` with the `try` body's normal path instantiated by
the embedded orchestrator: the pipeline is constructed successfully, runs
to completion (it catches its own stage exceptions), and its boolean and
monitor summary feed the job record. -/
def run_pipeline_job_full (s : SchedulerState) (job_id : Nat)
    (environment : String) (elapsed : ℚ) (cfg : PipelineConfig)
    (env : PipelineEnv) : SchedulerState × JobRun :=
  let res := run_pipeline cfg env
  run_pipeline_job s
    { job_id := job_id, environment := environment, elapsed := elapsed
      outcome := .ok res.success (get_summary res.metrics) }

/-- The `monitoring.alerts.conditions` configuration values read by
`should_send_alert`, with the source's defaults. -/
structure AlertConditions where
  processing_time_threshold : ℚ := 300
  error_rate_threshold : ℚ := 5
  deriving Repr, DecidableEq

/-- `job_info.get('processing_time', 0)`. -/
def processingTimeOrZero (r : JobRun) : ℚ := r.processing_time.getD 0

/-- `job_info.get('metrics', dict()).get('success_rate', 100)`. -/
def successRateOr100 (r : JobRun) : ℚ :=
  (r.metrics.map (fun m => m.success_rate)).getD 100

/-- `PipelineScheduler.should_send_alert`. -/
def should_send_alert (cond : AlertConditions) (r : JobRun) : Bool :=
  if r.status == "failed" || r.status == "error" then true
  else if processingTimeOrZero r > cond.processing_time_threshold then true
  else if 100 - successRateOr100 r > cond.error_rate_threshold then true
  else false

/-- The dict returned by `PipelineScheduler.get_pipeline_status`. -/
structure PipelineStatus where
  scheduler_running : Bool
  total_jobs : Nat
  successful_jobs : Nat
  failed_jobs : Nat
  last_job : Option JobRun
  deriving Repr, DecidableEq

/-- `PipelineScheduler.get_pipeline_status`. -/
def get_pipeline_status (s : SchedulerState) : PipelineStatus :=
  { scheduler_running := s.is_running
    total_jobs := s.pipeline_history.length
    successful_jobs :=
      (s.pipeline_history.filter (fun j => j.status == "completed")).length
    failed_jobs :=
      (s.pipeline_history.filter
        (fun j => j.status == "failed" || j.status == "error")).length
    last_job := s.pipeline_history.getLast? }

/-- `psutil` system metrics read by the health calculation.  The
collector returns an empty dict when sampling raises, modelled as
`none` at the call sites. -/
structure SystemMetrics where
  cpu_percent : ℚ
  memory_percent : ℚ
  disk_percent : ℚ
  deriving Repr, DecidableEq

/-- The store-health dict of `PipelineMonitor.check_database_health`:
only its `status` string is read by the health calculation. -/
structure DatabaseHealth where
  status : String
  deriving Repr, DecidableEq

/-- The numeric score computed inside
`PipelineMonitor.calculate_overall_health`: start at 100; when system
metrics were collected, subtract 10 for each of cpu > 80,
memory > 90, disk > 90; subtract 40 when the store is not healthy;
subtract 15 when any history job failed; subtract 15 when the
scheduler is not running. -/
def healthScore (sm : Option SystemMetrics) (db : DatabaseHealth)
    (ps : PipelineStatus) : ℤ :=
  let s1 : ℤ :=
    match sm with
    | none => 100
    | some m =>
      100 - (if m.cpu_percent > 80 then 10 else 0)
          - (if m.memory_percent > 90 then 10 else 0)
          - (if m.disk_percent > 90 then 10 else 0)
  let s2 := s1 - (if db.status ≠ "healthy" then 40 else 0)
  let s3 := s2 - (if ps.failed_jobs > 0 then 15 else 0)
  s3 - (if ps.scheduler_running then 0 else 15)

/-- `PipelineMonitor.calculate_overall_health`: the score mapped to a
three-way classification. -/
def calculate_overall_health (sm : Option SystemMetrics)
    (db : DatabaseHealth) (ps : PipelineStatus) : String :=
  if healthScore sm db ps ≥ 80 then "healthy"
  else if healthScore sm db ps ≥ 60 then "warning"
  else "critical"

/-- The last `n` entries of a list, the shape `truncHistory` keeps. -/
def lastN (n : Nat) (l : List α) : List α := l.drop (l.length - n)

end PipelineScheduler

/-! Concrete data used by the witness and counterexample theorems. -/

namespace ExampleData

open HealthcarePipeline PipelineScheduler

/-- 105 job submissions, all succeeding, for the history-bound witness. -/
def jobInputs105 : List JobInput :=
  (List.range 105).map (fun i =>
    { job_id := i, environment := "development", elapsed := 1
      outcome := .ok true ⟨100, 0, 100, 0⟩ })

/-- A completed run with every metric inside the default alert
thresholds. -/
def quietRun : JobRun :=
  { job_id := 7, environment := "development", status := "completed"
    processing_time := some 12, metrics := some ⟨100, 0, 100, 0⟩
    error := none }

/-- A failed run sitting in the scheduler history. -/
def aFailedRun : JobRun :=
  { job_id := 3, environment := "development", status := "failed"
    processing_time := some 9, metrics := none, error := none }

/-- Scheduler running, empty history. -/
def stateRunningClean : SchedulerState :=
  { pipeline_history := [], is_running := true }

/-- Scheduler running, one failed job in the history. -/
def stateRunningOneFail : SchedulerState :=
  { pipeline_history := [aFailedRun], is_running := true }

/-- A batch with no `Name` column (ages, genders and insurers are
present and well-formed). -/
def patientNoNameBatch : Batch :=
  { nrows := 2
    age := some [some 30, some 40]
    gender := some [some "Male", some "Female"]
    insurance := some [some "Aetna", some "Cigna"] }

/-- A well-formed two-row patient batch: names present, non-null, with
a space in at least one of them. -/
def patientOkBatch : Batch :=
  { nrows := 2
    name := some [some "John Smith", some "Mary Jones"]
    age := some [some 30, some 40]
    gender := some [some "Male", some "Female"]
    insurance := some [some "Aetna", some "Cigna"] }

/-- 20 names in which one identity value fills 40% of the rows
(8 of 20) and the other 12 names are distinct. -/
def names40 : List (Option String) :=
  (List.replicate 8 (some "X"))
    ++ (List.range 12).map (fun i => some (toString i))

/-- The same 20 rows at 60% duplication (12 of 20 share one name). -/
def names60 : List (Option String) :=
  (List.replicate 12 (some "X"))
    ++ (List.range 8).map (fun i => some (toString i))

/-- The 40%-duplication batch. -/
def batch40 : Batch := { nrows := 20, name := some names40 }

/-- The 60%-duplication batch. -/
def batch60 : Batch := { nrows := 20, name := some names60 }

/-- One admission row with both raw date columns and no derived parse
columns. -/
def admissionProbeBatch : Batch :=
  { nrows := 1
    dateOfAdmission := some [some 5]
    dischargeDate := some [some 7]
    admissionType := some [some "Emergency"] }

/-- A complete two-row batch whose only defect is a negative age, so
that validation fails while every stage downstream could run.  (It has
no billing column, which keeps its validation inside `ℤ`/`String`
evaluation.) -/
def invalidAgeBatch : Batch :=
  { nrows := 2
    name := some [some "John Smith", some "Mary Jones"]
    age := some [some (-1), some 30]
    gender := some [some "Male", some "Female"]
    insurance := some [some "Aetna", some "Cigna"]
    dateOfAdmission := some [some 10, some 20]
    dischargeDate := some [some 15, some 25]
    admissionType := some [some "Emergency", some "Elective"] }

/-- A pipeline environment that extracts `invalidAgeBatch` and whose
store accepts every load. -/
def envInvalidAge : PipelineEnv :=
  { extract := .ok invalidAgeBatch
    load_patients_ok := true, load_admissions_ok := true
    load_financial_ok := true, now := 100, currentYear := 2026 }

/-- A five-cell billing column with one missing value, for the
financial-cleaning witness. -/
def billingBatch : Batch :=
  { nrows := 5
    name := some [some "a", some "b", some "c", some "d", some "e"]
    billingAmount := some [some 1, some 2, some 3, none, some 100] }

end ExampleData

/-! Helper lemmas. -/

namespace PipelineScheduler

open HealthcarePipeline

theorem truncHistory_eq_drop (l : List JobRun) :
    truncHistory l = l.drop (l.length - 100) := by
  unfold truncHistory
  split
  · rfl
  · rename_i h
    have h0 : l.length - 100 = 0 := by omega
    rw [h0, List.drop_zero]

theorem lastN_idem_append (xs : List α) (r : α) :
    lastN 100 (lastN 100 xs ++ [r]) = lastN 100 (xs ++ [r]) := by
  unfold lastN
  rcases le_or_lt xs.length 100 with h | h
  · have h0 : xs.length - 100 = 0 := by omega
    rw [h0, List.drop_zero]
  · have hlen : (xs.drop (xs.length - 100)).length = 100 := by
      rw [List.length_drop]; omega
    rw [List.length_append, List.length_append, hlen]
    simp only [List.length_cons, List.length_nil]
    rw [List.drop_append_of_le_length (by omega),
        List.drop_append_of_le_length (by omega),
        List.drop_drop]
    congr 2
    omega

theorem runJobs_history_aux (inputs : List JobInput) :
    ∀ (xs : List JobRun) (running : Bool),
      (runJobs ⟨lastN 100 xs, running⟩ inputs).pipeline_history =
        lastN 100 (xs ++ inputs.map mkJobRun) := by
  induction inputs with
  | nil =>
    intro xs running
    simp [runJobs, lastN]
  | cons inp rest ih =>
    intro xs running
    have hstep : (run_pipeline_job ⟨lastN 100 xs, running⟩ inp).1 =
        ⟨lastN 100 (xs ++ [mkJobRun inp]), running⟩ := by
      show SchedulerState.mk (truncHistory (lastN 100 xs ++ [mkJobRun inp])) running = _
      rw [truncHistory_eq_drop]
      rw [show (lastN 100 xs ++ [mkJobRun inp]).drop
            ((lastN 100 xs ++ [mkJobRun inp]).length - 100)
          = lastN 100 (lastN 100 xs ++ [mkJobRun inp]) from rfl]
      rw [lastN_idem_append]
    show (runJobs (run_pipeline_job ⟨lastN 100 xs, running⟩ inp).1 rest).pipeline_history = _
    rw [hstep, ih (xs ++ [mkJobRun inp]) running, List.append_assoc]
    rfl

/-- **C1.**  Across every sequence of `run_pipeline_job` calls the
history holds the at most 100 most recent job records in submission
order; each call appends exactly its one new record at the end, dropping
entries only from the front; and 105 sequential runs leave exactly the
100 most recent records, in order. -/
theorem jobHistory_bounded_evicts_oldest :
    (∀ (inputs : List JobInput),
        (runJobs initialState inputs).pipeline_history =
          (inputs.map mkJobRun).drop (inputs.length - 100)
      ∧ (runJobs initialState inputs).pipeline_history.length ≤ 100)
    ∧ (∀ (s : SchedulerState) (inp : JobInput),
        (run_pipeline_job s inp).1.pipeline_history =
          s.pipeline_history.drop (s.pipeline_history.length + 1 - 100)
            ++ [(run_pipeline_job s inp).2])
    ∧ (∀ (inputs : List JobInput), inputs.length = 105 →
          (runJobs initialState inputs).pipeline_history =
            (inputs.map mkJobRun).drop 5
        ∧ (runJobs initialState inputs).pipeline_history.length = 100) := by
  have key : ∀ (inputs : List JobInput),
      (runJobs initialState inputs).pipeline_history =
        (inputs.map mkJobRun).drop (inputs.length - 100) := by
    intro inputs
    have h := runJobs_history_aux inputs [] false
    have h0 : (⟨lastN 100 ([] : List JobRun), false⟩ : SchedulerState) = initialState := rfl
    rw [h0] at h
    rw [h]
    unfold lastN
    rw [List.nil_append, List.length_map]
  refine ⟨?_, ?_, ?_⟩
  · intro inputs
    refine ⟨key inputs, ?_⟩
    rw [key inputs, List.length_drop, List.length_map]
    omega
  · intro s inp
    show truncHistory (s.pipeline_history ++ [mkJobRun inp])
      = s.pipeline_history.drop (s.pipeline_history.length + 1 - 100) ++ [mkJobRun inp]
    rw [truncHistory_eq_drop, List.length_append]
    simp only [List.length_cons, List.length_nil]
    rw [List.drop_append_of_le_length (by omega)]
  · intro inputs h105
    constructor
    · rw [key inputs, h105]
    · rw [key inputs, List.length_drop, List.length_map, h105]

/-- **C1 witness.**  105 concrete successful submissions leave a history
of exactly 100 entries. -/
theorem jobHistory_bounded_evicts_oldest_witness :
    ExampleData.jobInputs105.length = 105
    ∧ (runJobs initialState ExampleData.jobInputs105).pipeline_history.length = 100 := by
  have h : ExampleData.jobInputs105.length = 105 := by
    unfold ExampleData.jobInputs105
    rw [List.length_map, List.length_range]
  exact ⟨h, (jobHistory_bounded_evicts_oldest.2.2 _ h).2⟩

/-- **C2.**  When constructing or running the pipeline throws, the
scheduler's handler absorbs it (the job function is total over all
outcomes, including exceptional ones): the job record carries
`status = error` with the exception detail in `error`, and is still
appended as the last history entry; the non-exceptional path stamps
`completed`/`failed` instead, so `error` is distinct from the
validation-driven `failed`. -/
theorem run_pipeline_job_catches_pipeline_exceptions :
    ∀ (s : SchedulerState) (jid : Nat) (envName : String) (t : ℚ) (e : String),
      ((run_pipeline_job s ⟨jid, envName, t, .exn e⟩).2.status = "error"
      ∧ (run_pipeline_job s ⟨jid, envName, t, .exn e⟩).2.error = some e
      ∧ (run_pipeline_job s ⟨jid, envName, t, .exn e⟩).1.pipeline_history.getLast? =
          some (run_pipeline_job s ⟨jid, envName, t, .exn e⟩).2)
      ∧ (∀ (ok : Bool) (m : JobMetrics),
          (run_pipeline_job s ⟨jid, envName, t, .ok ok m⟩).2.status =
            if ok then "completed" else "failed") := by
  intro s jid envName t e
  refine ⟨⟨rfl, rfl, ?_⟩, fun ok m => rfl⟩
  show (truncHistory (s.pipeline_history ++ [mkJobRun ⟨jid, envName, t, .exn e⟩])).getLast?
    = some (mkJobRun ⟨jid, envName, t, .exn e⟩)
  rw [truncHistory_eq_drop,
      List.drop_append_of_le_length
        (by rw [List.length_append]; simp only [List.length_cons, List.length_nil]; omega)]
  exact List.getLast?_concat _

/-- **C3.**  The overall-health score starts at 100; with system metrics
present it subtracts 10 for each of cpu > 80, memory > 90, disk > 90;
it subtracts 40 for an unhealthy store, 15 when some history job is
`failed`/`error` (the positivity of `failed_jobs` is exactly that), and
15 when the scheduler is not running; ≥ 80 maps to healthy, 60–79 to
warning, < 60 to critical.  The two quoted instances evaluate to
90/healthy and 45/critical. -/
theorem calculate_overall_health_spec :
    (∀ (s : SchedulerState),
        (0 < (get_pipeline_status s).failed_jobs ↔
          ∃ j ∈ s.pipeline_history, j.status = "failed" ∨ j.status = "error"))
    ∧ (∀ (m : SystemMetrics) (db : DatabaseHealth) (ps : PipelineStatus),
        healthScore (some m) db ps =
          100 - (if m.cpu_percent > 80 then 10 else 0)
              - (if m.memory_percent > 90 then 10 else 0)
              - (if m.disk_percent > 90 then 10 else 0)
              - (if db.status ≠ "healthy" then 40 else 0)
              - (if 0 < ps.failed_jobs then 15 else 0)
              - (if ps.scheduler_running then 0 else 15))
    ∧ (∀ (sm : Option SystemMetrics) (db : DatabaseHealth) (ps : PipelineStatus),
        calculate_overall_health sm db ps =
          if 80 ≤ healthScore sm db ps then "healthy"
          else if 60 ≤ healthScore sm db ps then "warning"
          else "critical")
    ∧ (healthScore (some ⟨85, 50, 50⟩) ⟨"healthy"⟩
          (get_pipeline_status ExampleData.stateRunningClean) = 90
      ∧ calculate_overall_health (some ⟨85, 50, 50⟩) ⟨"healthy"⟩
          (get_pipeline_status ExampleData.stateRunningClean) = "healthy")
    ∧ (healthScore (some ⟨50, 50, 50⟩) ⟨"unhealthy"⟩
          (get_pipeline_status ExampleData.stateRunningOneFail) = 45
      ∧ calculate_overall_health (some ⟨50, 50, 50⟩) ⟨"unhealthy"⟩
          (get_pipeline_status ExampleData.stateRunningOneFail) = "critical") := by
  refine ⟨?_, fun m db ps => rfl, fun sm db ps => rfl, by decide, by decide⟩
  intro s
  simp [get_pipeline_status, ← List.countP_eq_length_filter]

/-- **C4.**  `should_send_alert` is true exactly when the status is
`failed`/`error`, the processing time exceeds the configured threshold,
or `100 − success_rate` exceeds the configured error-rate threshold; in
particular a completed run within both thresholds never alerts. -/
theorem should_send_alert_spec :
    (∀ (cond : AlertConditions) (r : JobRun),
        should_send_alert cond r = true ↔
          (r.status = "failed" ∨ r.status = "error"
            ∨ processingTimeOrZero r > cond.processing_time_threshold
            ∨ 100 - successRateOr100 r > cond.error_rate_threshold))
    ∧ (∀ (cond : AlertConditions) (r : JobRun),
        r.status = "completed" →
        processingTimeOrZero r ≤ cond.processing_time_threshold →
        100 - successRateOr100 r ≤ cond.error_rate_threshold →
        should_send_alert cond r = false) := by
  have main : ∀ (cond : AlertConditions) (r : JobRun),
      should_send_alert cond r = true ↔
        (r.status = "failed" ∨ r.status = "error"
          ∨ processingTimeOrZero r > cond.processing_time_threshold
          ∨ 100 - successRateOr100 r > cond.error_rate_threshold) := by
    intro cond r
    unfold should_send_alert
    split_ifs with h1 h2 h3
    · simp only [Bool.or_eq_true, beq_iff_eq] at h1
      simp only [true_iff]
      tauto
    · simp only [true_iff]
      exact Or.inr (Or.inr (Or.inl h2))
    · simp only [true_iff]
      exact Or.inr (Or.inr (Or.inr h3))
    · simp only [Bool.or_eq_true, beq_iff_eq, not_or] at h1
      simp only [false_iff, not_or]
      exact ⟨h1.1, h1.2, h2, h3⟩
  refine ⟨main, ?_⟩
  intro cond r h hp he
  rcases hb : should_send_alert cond r with _ | _
  · rfl
  · rcases (main cond r).mp hb with hc | hc | hc | hc
    · rw [h] at hc; exact absurd hc (by decide)
    · rw [h] at hc; exact absurd hc (by decide)
    · exact absurd hc (not_lt.mpr hp)
    · exact absurd hc (not_lt.mpr he)

/-- **C4 witness.**  A concrete completed run inside the default
thresholds does not alert. -/
theorem should_send_alert_spec_witness :
    ExampleData.quietRun.status = "completed"
    ∧ processingTimeOrZero ExampleData.quietRun
        ≤ ({} : AlertConditions).processing_time_threshold
    ∧ 100 - successRateOr100 ExampleData.quietRun
        ≤ ({} : AlertConditions).error_rate_threshold
    ∧ should_send_alert {} ExampleData.quietRun = false := by
  have h1 : ExampleData.quietRun.status = "completed" := rfl
  have h2 : processingTimeOrZero ExampleData.quietRun
      ≤ ({} : AlertConditions).processing_time_threshold := by
    norm_num [processingTimeOrZero, ExampleData.quietRun]
  have h3 : 100 - successRateOr100 ExampleData.quietRun
      ≤ ({} : AlertConditions).error_rate_threshold := by
    norm_num [successRateOr100, ExampleData.quietRun]
  exact ⟨h1, h2, h3, should_send_alert_spec.2 {} ExampleData.quietRun h1 h2 h3⟩

end PipelineScheduler

namespace HealthcarePipeline

theorem countP_isDup_required (b : Batch) :
    (patientRequiredIssues b).countP isDupIssue = 0 := by
  simp only [patientRequiredIssues]
  split <;> rfl

theorem countP_isDup_age (b : Batch) :
    (patientAgeIssues b).countP isDupIssue = 0 := by
  simp only [patientAgeIssues]
  split
  · rfl
  · split <;> rfl

theorem countP_isDup_gender (b : Batch) :
    (patientGenderIssues b).countP isDupIssue = 0 := by
  simp only [patientGenderIssues]
  split
  · rfl
  · split <;> rfl

theorem countP_isDup_dup (b : Batch) (names : List (Option String))
    (h : b.name = some names) :
    (patientDupIssues b).countP isDupIssue =
      if (dupCount names : ℚ) > (b.nrows : ℚ) * (5 / 10) then 1 else 0 := by
  simp only [patientDupIssues, h]
  by_cases hd : dupCount names > 0
  · rw [if_pos hd]
    split <;> rfl
  · rw [if_neg hd]
    have h0 : dupCount names = 0 := by omega
    rw [h0]
    have hnn : (0 : ℚ) ≤ (b.nrows : ℚ) * (5 / 10) := by positivity
    rw [if_neg (by push_cast; exact not_lt.mpr hnn)]
    rfl

/-- **C7.**  `validate_patient_data` reports exactly one
duplicate-identity issue when the duplicated-name count exceeds half the
batch size and none otherwise; a 20-row batch at 40% duplication of one
identity yields no such issue while the same batch at 60% yields exactly
one. -/
theorem validate_patient_duplicate_issue_iff :
    (∀ (b : Batch) (names : List (Option String)), b.name = some names →
        (validate_patient_data b).2.2.countP isDupIssue =
          if (dupCount names : ℚ) > (b.nrows : ℚ) * (5 / 10) then 1 else 0)
    ∧ (validate_patient_data ExampleData.batch40).2.2.countP isDupIssue = 0
    ∧ (validate_patient_data ExampleData.batch60).2.2.countP isDupIssue = 1 := by
  have main : ∀ (b : Batch) (names : List (Option String)), b.name = some names →
      (validate_patient_data b).2.2.countP isDupIssue =
        if (dupCount names : ℚ) > (b.nrows : ℚ) * (5 / 10) then 1 else 0 := by
    intro b names h
    show (patientRequiredIssues b ++ patientAgeIssues b
      ++ patientGenderIssues b ++ patientDupIssues b).countP isDupIssue = _
    rw [List.countP_append, List.countP_append, List.countP_append,
        countP_isDup_required, countP_isDup_age, countP_isDup_gender,
        countP_isDup_dup b names h]
    simp
  have h40 : dupCount ExampleData.names40 = 7 := by decide
  have h60 : dupCount ExampleData.names60 = 11 := by decide
  refine ⟨main, ?_, ?_⟩
  · rw [main ExampleData.batch40 ExampleData.names40 rfl, h40]
    norm_num [ExampleData.batch40]
  · rw [main ExampleData.batch60 ExampleData.names60 rfl, h60]
    norm_num [ExampleData.batch60]

/-- **C7 witness.**  The general clause instantiated at the concrete
60%-duplication batch. -/
theorem validate_patient_duplicate_issue_iff_witness :
    ExampleData.batch60.name = some ExampleData.names60
    ∧ (validate_patient_data ExampleData.batch60).2.2.countP isDupIssue =
        if (dupCount ExampleData.names60 : ℚ)
            > (ExampleData.batch60.nrows : ℚ) * (5 / 10) then 1 else 0 :=
  ⟨rfl, validate_patient_duplicate_issue_iff.1
    ExampleData.batch60 ExampleData.names60 rfl⟩

/-- **C8 counterexample.**  The gender normalization is not
case-insensitive: the lower-case spelling of the same label maps to the
`Unknown` sentinel while the upper-case spelling maps to `M`. -/
theorem gender_mapping_not_case_insensitive :
    standardize_gender (some "male") = some "Unknown"
    ∧ standardize_gender (some "MALE") = some "M"
    ∧ upperAscii "male" = upperAscii "MALE"
    ∧ "male" ≠ "MALE" := by
  refine ⟨rfl, rfl, by decide, by decide⟩

/-- **C8 amended.**  The mapping recognizes exactly the four spellings
`Male`, `Female`, `MALE`, `FEMALE` (so `FEMALE ↦ F` holds); every other
value — including lower-case spellings and the codes `M`/`F`
themselves — maps to the explicit `Unknown` sentinel, and no value is
dropped (the standardized cell is never missing). -/
theorem gender_mapping_exact_spellings :
    (standardize_gender (some "FEMALE") = some "F")
    ∧ (∀ c : Option String, standardize_gender c ≠ none)
    ∧ (∀ s : String, s ∉ ["Male", "Female", "MALE", "FEMALE"] →
        standardize_gender (some s) = some "Unknown")
    ∧ (standardize_gender (some "Male") = some "M"
      ∧ standardize_gender (some "MALE") = some "M"
      ∧ standardize_gender (some "Female") = some "F"
      ∧ standardize_gender none = some "Unknown") := by
  refine ⟨rfl, ?_, ?_, rfl, rfl, rfl, rfl⟩
  · intro c
    cases c <;> simp [standardize_gender]
  · intro s hs
    simp only [List.mem_cons, List.not_mem_nil, or_false, not_or] at hs
    obtain ⟨h1, h2, h3, h4⟩ := hs
    have e1 : ("Male" == s) = false := beq_eq_false_iff_ne.mpr (Ne.symm h1)
    have e2 : ("Female" == s) = false := beq_eq_false_iff_ne.mpr (Ne.symm h2)
    have e3 : ("MALE" == s) = false := beq_eq_false_iff_ne.mpr (Ne.symm h3)
    have e4 : ("FEMALE" == s) = false := beq_eq_false_iff_ne.mpr (Ne.symm h4)
    simp [standardize_gender, mapGender, gender_mapping, List.find?,
      e1, e2, e3, e4]

/-- **C8 witness.**  A concrete unrecognized label maps to `Unknown`. -/
theorem gender_mapping_exact_spellings_witness :
    ("Other" ∉ ["Male", "Female", "MALE", "FEMALE"])
    ∧ standardize_gender (some "Other") = some "Unknown" :=
  ⟨by decide, gender_mapping_exact_spellings.2.2.1 "Other" (by decide)⟩

/-- **C9 counterexample.**  `validate_admission_data` mutates the batch
passed in: on a batch that has both raw date columns but no
`admission_date` column, the returned batch differs from the input —
the parsed `admission_date` column has been added in place. -/
theorem validate_admission_data_mutates_batch :
    (validate_admission_data 10 ExampleData.admissionProbeBatch).1
        ≠ ExampleData.admissionProbeBatch
    ∧ ExampleData.admissionProbeBatch.admission_date = none
    ∧ (validate_admission_data 10 ExampleData.admissionProbeBatch).1.admission_date
        = some [some 5] := by
  refine ⟨by decide, rfl, rfl⟩

/-- **C9 amended.**  `validate_patient_data` and
`validate_financial_data` return the batch unchanged; and although
`validate_admission_data` writes two derived parse columns onto the
batch in place, it preserves every raw column and the row count. -/
theorem validators_preserve_raw_columns :
    (∀ b : Batch, (validate_patient_data b).1 = b)
    ∧ (∀ b : Batch, (validate_financial_data b).1 = b)
    ∧ (∀ (now : Date) (b : Batch),
        (validate_admission_data now b).1.nrows = b.nrows
        ∧ (validate_admission_data now b).1.name = b.name
        ∧ (validate_admission_data now b).1.age = b.age
        ∧ (validate_admission_data now b).1.gender = b.gender
        ∧ (validate_admission_data now b).1.insurance = b.insurance
        ∧ (validate_admission_data now b).1.dateOfAdmission = b.dateOfAdmission
        ∧ (validate_admission_data now b).1.dischargeDate = b.dischargeDate
        ∧ (validate_admission_data now b).1.admissionType = b.admissionType
        ∧ (validate_admission_data now b).1.roomNumber = b.roomNumber
        ∧ (validate_admission_data now b).1.billingAmount = b.billingAmount) := by
  refine ⟨fun b => rfl, fun b => rfl, ?_⟩
  intro now b
  cases hda : b.dateOfAdmission with
  | none => simp [validate_admission_data, hda]
  | some adm =>
    cases hdd : b.dischargeDate with
    | none => simp [validate_admission_data, hda, hdd]
    | some dis => simp [validate_admission_data, hda, hdd]

theorem genderStep_name (x : Batch) : (genderStep x).name = x.name := by
  unfold genderStep
  split <;> rfl

theorem except_bind_ok (a : α) (f : α → Except String β) :
    (Except.ok a : Except String α) >>= f = f a := rfl

/-- **C5 counterexample.**  The cleaning contract is not total:
`clean_patient_data` raises (`KeyError`) on a batch that has no `Name`
column, because its patient-id derivation reads `Name` unguarded. -/
theorem clean_patient_data_raises_on_missing_name :
    clean_patient_data 2026 ExampleData.patientNoNameBatch
      = .error "KeyError: Name" := rfl

/-- **C5 amended.**  The admission and financial cleaners never raise
(`transform_data` fails exactly when the patient cleaner does), and
`clean_patient_data` itself never raises provided the batch carries a
`Name` column whose cells are all non-null with at least one name
containing a space. -/
theorem clean_patient_total_on_wellformed_names :
    (∀ (y : ℤ) (b : Batch),
        (transform_data y b).isOk = (clean_patient_data y b).isOk)
    ∧ (∀ (y : ℤ) (b : Batch) (names : List (Option String)),
        b.name = some names →
        (∀ c ∈ names, c.isSome) →
        (∃ c ∈ names, ∃ str : String, c = some str ∧ (splitRest str).isSome) →
        (clean_patient_data y b).isOk = true) := by
  constructor
  · intro y b
    unfold transform_data
    cases h : clean_patient_data y b with
    | error e => simp [h, except_bind_ok, Except.isOk, Except.toBool, Bind.bind, Except.bind]
    | ok b1 => simp [h, except_bind_ok, Except.isOk, Except.toBool, Bind.bind, Except.bind,
        Pure.pure, Except.pure]
  · intro y b names hname hsome hsplit
    obtain ⟨c0, hc0, str, hcs, hsp⟩ := hsplit
    cases names with
    | nil => exact absurd hc0 (List.not_mem_nil c0)
    | cons n0 ns =>
      have hnot : ¬ (((n0 :: ns).map (fun c => c.bind splitRest)).all
          (fun c => decide (c = none)) = true) := by
        intro hall
        rw [List.all_eq_true] at hall
        have hmem : c0.bind splitRest ∈ (n0 :: ns).map (fun c => c.bind splitRest) :=
          List.mem_map_of_mem _ hc0
        have hnone := of_decide_eq_true (hall _ hmem)
        rw [hcs, Option.some_bind] at hnone
        rw [hnone] at hsp
        exact absurd hsp (by simp)
      have hstep1 : splitNameStep b = .ok { b with
          name := some (n0 :: ns)
          first_name := some ((n0 :: ns).map (fun c => c.map splitHead))
          last_name := some (((n0 :: ns).map (fun c => c.bind splitRest)).map
            (fun c => some (c.getD ""))) } := by
        simp only [splitNameStep, hname]
        rw [if_neg hnot]
        rfl
      have hn1 : (genderStep { b with
          name := some (n0 :: ns)
          first_name := some ((n0 :: ns).map (fun c => c.map splitHead))
          last_name := some (((n0 :: ns).map (fun c => c.bind splitRest)).map
            (fun c => some (c.getD ""))) }).name = some (n0 :: ns) := by
        rw [genderStep_name]
      have hall2 : ((n0 :: ns).all (fun c => c.isSome)) = true :=
        List.all_eq_true.mpr (fun c hc => hsome c hc)
      have hstep3 : patientIdStep (genderStep { b with
          name := some (n0 :: ns)
          first_name := some ((n0 :: ns).map (fun c => c.map splitHead))
          last_name := some (((n0 :: ns).map (fun c => c.bind splitRest)).map
            (fun c => some (c.getD ""))) }) = .ok { genderStep { b with
          name := some (n0 :: ns)
          first_name := some ((n0 :: ns).map (fun c => c.map splitHead))
          last_name := some (((n0 :: ns).map (fun c => c.bind splitRest)).map
            (fun c => some (c.getD ""))) } with
          patient_id := some ((n0 :: ns).map (fun c => c.map md5hex12)) } := by
        simp only [patientIdStep, hn1]
        rw [if_pos hall2]
        rfl
      simp only [clean_patient_data, hstep1, except_bind_ok, hstep3]
      rfl

/-- **C5 witness.**  A concrete well-formed batch cleans without
raising. -/
theorem clean_patient_total_on_wellformed_names_witness :
    ExampleData.patientOkBatch.name = some [some "John Smith", some "Mary Jones"]
    ∧ (∀ c ∈ [some "John Smith", some "Mary Jones"], c.isSome)
    ∧ (∃ c ∈ [some "John Smith", some "Mary Jones"],
        ∃ str : String, c = some str ∧ (splitRest str).isSome)
    ∧ (clean_patient_data 2026 ExampleData.patientOkBatch).isOk = true := by
  have h1 : ExampleData.patientOkBatch.name
      = some [some "John Smith", some "Mary Jones"] := rfl
  have h2 : ∀ c ∈ [some "John Smith", some "Mary Jones"], c.isSome := by decide
  have h3 : ∃ c ∈ [some "John Smith", some "Mary Jones"],
      ∃ str : String, c = some str ∧ (splitRest str).isSome :=
    ⟨some "John Smith", by decide, "John Smith", rfl, by decide⟩
  exact ⟨h1, h2, h3,
    clean_patient_total_on_wellformed_names.2 2026 ExampleData.patientOkBatch
      [some "John Smith", some "Mary Jones"] h1 h2 h3⟩

theorem mem_applyMask_map (p : α → Bool) :
    ∀ (l : List α) (c : α), c ∈ applyMask (l.map p) l → p c = true := by
  intro l
  induction l with
  | nil =>
    intro c hc
    simp [applyMask] at hc
  | cons x xs ih =>
    intro c hc
    have hstep : applyMask ((x :: xs).map p) (x :: xs)
        = if p x then x :: applyMask (xs.map p) xs else applyMask (xs.map p) xs := rfl
    rw [hstep] at hc
    by_cases hx : p x = true
    · rw [if_pos hx] at hc
      rcases List.mem_cons.mp hc with h | h
      · rw [h]; exact hx
      · exact ih c h
    · rw [if_neg hx] at hc
      exact ih c hc

/-- **C10.**  `clean_financial_data` keeps exactly the rows passing the
band filter: every billing cell in the output is a numeric value `q`
with `(q − mean)² ≤ 9·var` — that is, within `[mean − 3σ, mean + 3σ]` of
the batch's parsed values — so rows whose billing is missing (null or
non-numeric, coerced to `NaN`) are dropped rather than retained. -/
theorem clean_financial_data_band :
    ∀ (b : Batch) (cells : List (Option ℚ)),
      b.billingAmount = some cells →
      ((clean_financial_data b).billingAmount
          = some (applyMask (cells.map (withinBand cells)) cells)
      ∧ (∀ c ∈ applyMask (cells.map (withinBand cells)) cells,
            ∃ q : ℚ, c = some q ∧ 2 ≤ (nonNull cells).length
              ∧ (q - billingMean cells) ^ 2 ≤ 9 * billingVar cells)
      ∧ none ∉ applyMask (cells.map (withinBand cells)) cells) := by
  intro b cells h
  have hmem : ∀ c ∈ applyMask (cells.map (withinBand cells)) cells,
      withinBand cells c = true :=
    fun c hc => mem_applyMask_map (withinBand cells) cells c hc
  refine ⟨?_, ?_, ?_⟩
  · simp [clean_financial_data, h]
  · intro c hc
    cases c with
    | none =>
      have hb := hmem none hc
      simp [withinBand] at hb
    | some q =>
      have hb := hmem (some q) hc
      simp only [withinBand, Bool.and_eq_true, decide_eq_true_eq] at hb
      exact ⟨q, rfl, hb.1, hb.2⟩
  · intro hmem0
    have hb := hmem none hmem0
    simp [withinBand] at hb

/-- **C10 witness.**  The theorem instantiated at a concrete batch whose
billing column contains a missing value: the output column contains no
missing cell. -/
theorem clean_financial_data_band_witness :
    ExampleData.billingBatch.billingAmount
        = some [some 1, some 2, some 3, none, some 100]
    ∧ none ∉ applyMask
        (([some 1, some 2, some 3, none, some 100] : List (Option ℚ)).map
          (withinBand ([some 1, some 2, some 3, none, some 100] : List (Option ℚ))))
        ([some 1, some 2, some 3, none, some 100] : List (Option ℚ)) :=
  ⟨rfl, (clean_financial_data_band ExampleData.billingBatch
    [some 1, some 2, some 3, none, some 100] rfl).2.2⟩

end HealthcarePipeline

namespace PipelineScheduler

open HealthcarePipeline

/-- **C6 counterexample.**  With validation enabled, a batch failing
validation ends the run with status `failed` and a non-empty collected
issue list, yet the `JobRun` records no error detail: its `error` field
stays empty (the issues reach only the monitor's metrics), contradicting
the claim that they are recorded as the run's error detail. -/
theorem validation_failure_error_field_empty :
    (run_pipeline_job_full initialState 1 "development" 5 {}
        ExampleData.envInvalidAge).2.status = "failed"
    ∧ (run_pipeline {} ExampleData.envInvalidAge).metrics.validation_errors ≠ []
    ∧ (run_pipeline_job_full initialState 1 "development" 5 {}
        ExampleData.envInvalidAge).2.error = none := by
  refine ⟨rfl, by decide, rfl⟩

/-- **C6 amended.**  With validation enabled, a failed validation ends
the run with status `failed`, no load is attempted, and the collected
issues are recorded in the monitor's metrics (their count reaching the
JobRun through its metrics summary) — but the JobRun's `error` field
remains unset. -/
theorem validation_failure_fails_run_without_load :
    ∀ (s : SchedulerState) (jid : Nat) (envName : String) (t : ℚ)
      (cfg : PipelineConfig) (env : PipelineEnv) (df : Batch),
      cfg.validation_enabled = true →
      env.extract = .ok df →
      (validate_data env.now df { records_processed := df.nrows }).2.1 = false →
      ((run_pipeline cfg env).success = false
      ∧ (run_pipeline cfg env).loadAttempted = false
      ∧ (run_pipeline cfg env).metrics =
          (validate_data env.now df { records_processed := df.nrows }).2.2
      ∧ (run_pipeline_job_full s jid envName t cfg env).2.status = "failed"
      ∧ (run_pipeline_job_full s jid envName t cfg env).2.error = none
      ∧ (run_pipeline_job_full s jid envName t cfg env).2.metrics =
          some (get_summary (run_pipeline cfg env).metrics)) := by
  intro s jid envName t cfg env df hval hex hfail
  have hrun : run_pipeline cfg env =
      { success := false, loadAttempted := false
        metrics := (validate_data env.now df { records_processed := df.nrows }).2.2 } := by
    simp only [run_pipeline, hex, hval, if_true, hfail]
  have hstat : (run_pipeline_job_full s jid envName t cfg env).2.status
      = if (run_pipeline cfg env).success then "completed" else "failed" := rfl
  have h4 : (run_pipeline_job_full s jid envName t cfg env).2.status = "failed" := by
    simp [hstat, hrun]
  exact ⟨by rw [hrun], by rw [hrun], by rw [hrun], h4, rfl, rfl⟩

/-- **C6 witness.**  The amended theorem instantiated at the concrete
invalid batch: validation fails and load is not attempted. -/
theorem validation_failure_fails_run_without_load_witness :
    ({} : PipelineConfig).validation_enabled = true
    ∧ ExampleData.envInvalidAge.extract = .ok ExampleData.invalidAgeBatch
    ∧ (validate_data ExampleData.envInvalidAge.now ExampleData.invalidAgeBatch
        { records_processed := ExampleData.invalidAgeBatch.nrows }).2.1 = false
    ∧ (run_pipeline {} ExampleData.envInvalidAge).loadAttempted = false := by
  have h1 : ({} : PipelineConfig).validation_enabled = true := rfl
  have h2 : ExampleData.envInvalidAge.extract = .ok ExampleData.invalidAgeBatch := rfl
  have h3 : (validate_data ExampleData.envInvalidAge.now ExampleData.invalidAgeBatch
      { records_processed := ExampleData.invalidAgeBatch.nrows }).2.1 = false := by decide
  exact ⟨h1, h2, h3,
    (validation_failure_fails_run_without_load initialState 1 "development" 5 {}
      ExampleData.envInvalidAge ExampleData.invalidAgeBatch h1 h2 h3).2.1⟩

end PipelineScheduler
